import Mathlib

/-!
Shallow embedding of the battery command sequencing and telemetry polling
protocol of the huawei_testing_protocol_sun2000 scripts
(inverter_battery_control.py, tcp_battery_control.py, rtu_battery_control.py,
inverter_telemetry.py).

The transport bridge (the external huawei_solar library) is modelled as an
environment of per-register outcomes; each Python coroutine becomes a pure
function from that environment to a trace of observable events plus a result.
-/

namespace Sun2000

/-- The device registers the scripts touch, named as in
huawei_solar.register_names. -/
inductive Register
  | STORAGE_FORCIBLE_CHARGE_DISCHARGE_SOC
  | STORAGE_FORCED_CHARGING_AND_DISCHARGING_PERIOD
  | STORAGE_FORCIBLE_CHARGE_POWER
  | STORAGE_FORCIBLE_DISCHARGE_POWER
  | STORAGE_FORCIBLE_CHARGE_DISCHARGE_WRITE
  | STORAGE_STATE_OF_CAPACITY
  | STORAGE_CHARGE_DISCHARGE_POWER
  | INV_ACTIVE_POWER
  | INV_PV_POWER
  | INV_GRID_VOLTAGE
  | INV_GRID_FREQUENCY
  | INV_OPERATION_STATE
  deriving DecidableEq, Repr

/-- Error kinds of the error taxonomy (connection failure vs rejected login). -/
inductive ErrKind
  | connection
  | auth
  deriving DecidableEq, Repr

/-- Observable actions of the scripts against the bridge and the event loop. -/
inductive Event
  | ensureLoggedIn
  | write (r : Register) (v : Int)
  | readBack (r : Register)
  | readAttempt (r : Register)
  | reportValue (r : Register) (v : Int)
  | reportError (r : Register)
  | sleepInterval
  | startMonitor
  | cancelMonitor
  | awaitMonitor
  | logFailure (k : ErrKind)
  deriving DecidableEq, Repr

/-- Mock of a connected huawei_solar bridge: per-call outcomes of the
external transport. hasEnsureLoggedIn is true for the TCP bridge (which has
an ensure_logged_in method, checked via hasattr in
inverter_battery_control.ensure_and_set) and false for the RTU bridge.
writeOk tells whether bridge.set raises; readResult none means
bridge.client.get raises, some v means it returns value v. -/
structure Bridge where
  hasEnsureLoggedIn : Bool
  ensureOk : Bool
  writeOk : Register → Int → Bool
  readResult : Register → Option Int

/-- Per-step classification of the write-then-validate helper, as logged:
VALIDATED, MISMATCH or FAILED. -/
inductive StepStatus
  | validated
  | mismatch
  | failed
  deriving DecidableEq, Repr

/-- ensure_and_set (inverter_battery_control.py lines 50-69; the TCP variant
always takes the ensure_logged_in branch, the RTU variant never does): inside
one try block, optionally ensure_logged_in, then bridge.set, then read the
register back and compare; any exception is caught and the step is merely
logged as failed. Returns the event trace and the step classification. -/
def ensure_and_set (b : Bridge) (r : Register) (v : Int) :
    List Event × StepStatus :=
  let pre := if b.hasEnsureLoggedIn then [Event.ensureLoggedIn] else []
  if b.hasEnsureLoggedIn && !b.ensureOk then
    (pre, StepStatus.failed)
  else if !(b.writeOk r v) then
    (pre ++ [Event.write r v], StepStatus.failed)
  else
    match b.readResult r with
    | none => (pre ++ [Event.write r v, Event.readBack r], StepStatus.failed)
    | some w =>
        (pre ++ [Event.write r v, Event.readBack r],
         if w = v then StepStatus.validated else StepStatus.mismatch)

/-- The command sequencer: run ensure_and_set on every (register, value) step
of a plan, in order, collecting the trace and the per-step statuses. Each
force_*/stop_charge function in the scripts is literally such a sequence of
awaited ensure_and_set calls. -/
def execute (b : Bridge) : List (Register × Int) → List Event × List StepStatus
  | [] => ([], [])
  | (r, v) :: rest =>
      let s := ensure_and_set b r v
      let t := execute b rest
      (s.1 ++ t.1, s.2 :: t.2)

/-- The ordered steps of force_charge_duration
(inverter_battery_control.py lines 105-118). -/
def force_charge_duration_plan (power duration : Int) :
    List (Register × Int) :=
  [(Register.STORAGE_FORCIBLE_CHARGE_DISCHARGE_SOC, 100),
   (Register.STORAGE_FORCED_CHARGING_AND_DISCHARGING_PERIOD, duration),
   (Register.STORAGE_FORCIBLE_CHARGE_POWER, power),
   (Register.STORAGE_FORCIBLE_CHARGE_DISCHARGE_WRITE, 1)]

/-- The ordered steps of force_discharge_duration
(inverter_battery_control.py lines 122-135). -/
def force_discharge_duration_plan (power duration : Int) :
    List (Register × Int) :=
  [(Register.STORAGE_FORCIBLE_CHARGE_DISCHARGE_SOC, 0),
   (Register.STORAGE_FORCED_CHARGING_AND_DISCHARGING_PERIOD, duration),
   (Register.STORAGE_FORCIBLE_DISCHARGE_POWER, power),
   (Register.STORAGE_FORCIBLE_CHARGE_DISCHARGE_WRITE, 2)]

/-- The ordered steps of force_charge_soc
(inverter_battery_control.py lines 138-148). -/
def force_charge_soc_plan (power targetSoc : Int) : List (Register × Int) :=
  [(Register.STORAGE_FORCIBLE_CHARGE_DISCHARGE_SOC, targetSoc),
   (Register.STORAGE_FORCIBLE_CHARGE_POWER, power),
   (Register.STORAGE_FORCIBLE_CHARGE_DISCHARGE_WRITE, 1)]

/-- The ordered steps of force_discharge_soc
(inverter_battery_control.py lines 151-161). -/
def force_discharge_soc_plan (power targetSoc : Int) : List (Register × Int) :=
  [(Register.STORAGE_FORCIBLE_CHARGE_DISCHARGE_SOC, targetSoc),
   (Register.STORAGE_FORCIBLE_DISCHARGE_POWER, power),
   (Register.STORAGE_FORCIBLE_CHARGE_DISCHARGE_WRITE, 2)]

/-- The ordered steps of stop_charge
(inverter_battery_control.py lines 169-172). -/
def stop_plan : List (Register × Int) :=
  [(Register.STORAGE_FORCED_CHARGING_AND_DISCHARGING_PERIOD, 0),
   (Register.STORAGE_FORCIBLE_CHARGE_POWER, 0),
   (Register.STORAGE_FORCIBLE_DISCHARGE_POWER, 0),
   (Register.STORAGE_FORCIBLE_CHARGE_DISCHARGE_WRITE, 0)]

/-- The inverter mode latched by the trigger register
STORAGE_FORCIBLE_CHARGE_DISCHARGE_WRITE. -/
inductive Mode
  | idle
  | charge
  | discharge
  deriving DecidableEq, Repr

/-- Trigger register encoding as written by the scripts: stop_charge writes 0,
the force-charge functions write 1, the force-discharge functions write 2. -/
def triggerValue : Mode → Int
  | Mode.idle => 0
  | Mode.charge => 1
  | Mode.discharge => 2

/-- The registers of a plan, in emission order. -/
def planRegisters (p : List (Register × Int)) : List Register :=
  p.map Prod.fst

/-- State of an asyncio task created for monitor_stats. done() is true for
both finished and cancelled. -/
inductive TaskStatus
  | running
  | finished
  | cancelled
  deriving DecidableEq, Repr

/-- The dynamic per-bridge session state: the _monitor_task attribute stashed
on the bridge object (none when never set), plus the count of monitor tasks
that are still running but no longer referenced by _monitor_task (their
reference was overwritten by a later asyncio.create_task assignment). -/
structure Session where
  monitorTask : Option TaskStatus
  orphanRunning : Nat
  deriving DecidableEq, Repr

/-- Number of monitor_stats tasks currently running for this session. -/
def runningPollers (s : Session) : Nat :=
  s.orphanRunning + (if s.monitorTask = some TaskStatus.running then 1 else 0)

/-- force_charge_duration (inverter_battery_control.py lines 105-120): run the
four ensure_and_set steps of the charge-by-duration plan, then assign
bridge._monitor_task = asyncio.create_task(monitor_stats(bridge)). A
previously attached task that is still running is not cancelled; its
reference is simply overwritten. -/
def force_charge_duration (b : Bridge) (s : Session) (power duration : Int) :
    List Event × Session :=
  ((execute b (force_charge_duration_plan power duration)).1 ++
     [Event.startMonitor],
   { monitorTask := some TaskStatus.running,
     orphanRunning := s.orphanRunning +
       (if s.monitorTask = some TaskStatus.running then 1 else 0) })

/-- force_discharge_duration (inverter_battery_control.py lines 122-136):
same shape as force_charge_duration with the discharge plan. -/
def force_discharge_duration (b : Bridge) (s : Session) (power duration : Int) :
    List Event × Session :=
  ((execute b (force_discharge_duration_plan power duration)).1 ++
     [Event.startMonitor],
   { monitorTask := some TaskStatus.running,
     orphanRunning := s.orphanRunning +
       (if s.monitorTask = some TaskStatus.running then 1 else 0) })

/-- stop_charge (inverter_battery_control.py lines 164-181): first run the
four ensure_and_set steps of the stop plan, then fetch _monitor_task via
getattr; if it exists and is not done, cancel it and await it (swallowing
CancelledError). -/
def stop_charge (b : Bridge) (s : Session) : List Event × Session :=
  let ev := (execute b stop_plan).1
  match s.monitorTask with
  | some TaskStatus.running =>
      (ev ++ [Event.cancelMonitor, Event.awaitMonitor],
       { s with monitorTask := some TaskStatus.cancelled })
  | _ => (ev, s)

/-- read_param (inverter_telemetry.py lines 50-60, and the identical helpers
in the battery-control scripts): bridge.client.get inside a try block; on
success log and return the value, on any exception log the error and return
None. -/
def read_param (b : Bridge) (r : Register) : List Event × Option Int :=
  match b.readResult r with
  | some v => ([Event.readAttempt r, Event.reportValue r v], some v)
  | none => ([Event.readAttempt r, Event.reportError r], none)

/-- The fixed set of telemetry registers polled by poll_telemetry
(inverter_telemetry.py lines 88-103), in the enumeration order of the seven
awaited helper calls. -/
def telemetryRegisters : List Register :=
  [Register.INV_ACTIVE_POWER,
   Register.INV_PV_POWER,
   Register.INV_GRID_VOLTAGE,
   Register.INV_GRID_FREQUENCY,
   Register.STORAGE_STATE_OF_CAPACITY,
   Register.STORAGE_CHARGE_DISCHARGE_POWER,
   Register.INV_OPERATION_STATE]

/-- One body iteration of the poll_telemetry while-loop: the seven read_param
calls in source order. -/
def poll_cycle (b : Bridge) : List Event :=
  (read_param b Register.INV_ACTIVE_POWER).1 ++
  (read_param b Register.INV_PV_POWER).1 ++
  (read_param b Register.INV_GRID_VOLTAGE).1 ++
  (read_param b Register.INV_GRID_FREQUENCY).1 ++
  (read_param b Register.STORAGE_STATE_OF_CAPACITY).1 ++
  (read_param b Register.STORAGE_CHARGE_DISCHARGE_POWER).1 ++
  (read_param b Register.INV_OPERATION_STATE).1

/-- poll_telemetry run for n cycles before cancellation: each cycle is the
seven reads followed by asyncio.sleep(interval), the loop's suspension point
where cancellation is observed. -/
def poll_telemetry (b : Bridge) : Nat → List Event
  | 0 => []
  | n + 1 => poll_cycle b ++ [Event.sleepInterval] ++ poll_telemetry b n

/-- Recognizer for write events. -/
def isWrite : Event → Bool
  | Event.write _ _ => true
  | _ => false

/-- Number of bridge.set attempts in a trace. -/
def countWrites (tr : List Event) : Nat :=
  (tr.filter isWrite).length

/-- Recognizer for read attempts. -/
def isReadAttempt : Event → Bool
  | Event.readAttempt _ => true
  | _ => false

/-- Number of bridge.client.get attempts in a trace. -/
def countReadAttempts (tr : List Event) : Nat :=
  (tr.filter isReadAttempt).length

/-- Auxiliary check that every write event in a trace is immediately preceded
by an ensureLoggedIn event; prev is the event just before the head of the
remaining trace, if any. -/
def writesPrecededAux : Option Event → List Event → Bool
  | _, [] => true
  | prev, e :: rest =>
      (match e with
       | Event.write _ _ => decide (prev = some Event.ensureLoggedIn)
       | _ => true) && writesPrecededAux (some e) rest

/-- Every write event in the trace is immediately preceded by an
ensureLoggedIn event. -/
def writesPreceded (tr : List Event) : Bool :=
  writesPrecededAux none tr

/-- Connection environment: whether the transport connect succeeds, whether
the installer login is accepted, and the bridge obtained on success. -/
structure Env where
  connectOk : Bool
  loginOk : Bool
  bridge : Bridge

/-- connect_rtu (inverter_battery_control.py lines 28-36): create_rtu_bridge
inside a try block; on success return the bridge, on any exception log the
connection failure and return None. -/
def connect_rtu (e : Env) : List Event × Option Bridge :=
  if e.connectOk then ([], some e.bridge)
  else ([Event.logFailure ErrKind.connection], none)

/-- connect_and_login (tcp_battery_control.py lines 35-58): create_tcp_bridge
then bridge.login in one try block; a transport failure or a rejected login
is caught, logged, and None is returned. -/
def connect_and_login (e : Env) : List Event × Option Bridge :=
  if e.connectOk then
    if e.loginOk then ([], some e.bridge)
    else ([Event.logFailure ErrKind.auth], none)
  else ([Event.logFailure ErrKind.connection], none)

/-- The device-operation portion of main_rtu (inverter_battery_control.py
lines 192-208): connect; if the bridge is None, log and return immediately;
otherwise force-charge at 1000 W for 30 minutes, then stop. -/
def main_rtu (e : Env) : List Event :=
  match connect_rtu e with
  | (ev, none) => ev
  | (ev, some b) =>
      let f := force_charge_duration b { monitorTask := none, orphanRunning := 0 } 1000 30
      let st := stop_charge b f.2
      ev ++ f.1 ++ st.1

/-- State of the underlying transport for the shutdown path: whether it is
already closed, and whether bridge.stop raises when called. -/
structure BridgeState where
  closed : Bool
  stopRaises : Bool
  deriving DecidableEq, Repr

/-- The external bridge.stop() of the huawei_solar library: fallible. -/
def bridgeStop (st : BridgeState) : Except Unit BridgeState :=
  if st.stopRaises then Except.error ()
  else Except.ok { st with closed := true }

/-- shutdown_bridge (inverter_battery_control.py lines 183-191,
tcp_battery_control.py lines 60-68): await bridge.stop() inside a try block;
any exception is caught and logged, so the caller always gets a normal
return. -/
def shutdown_bridge (st : BridgeState) : Except Unit BridgeState :=
  match bridgeStop st with
  | Except.ok st2 => Except.ok st2
  | Except.error _ => Except.ok st

/-- n successive shutdown_bridge calls, propagating an exception if one ever
escaped (none can). -/
def shutdownIter : Nat → BridgeState → Except Unit BridgeState
  | 0, st => Except.ok st
  | n + 1, st =>
      match shutdown_bridge st with
      | Except.ok st2 => shutdownIter n st2
      | Except.error e => Except.error e

/-- Whether an Except result is a normal return. -/
def isOkResult : Except Unit BridgeState → Bool
  | Except.ok _ => true
  | Except.error _ => false

/-- A bridge whose transport always succeeds and whose read-backs echo 0. -/
def bOK : Bridge :=
  { hasEnsureLoggedIn := false
    ensureOk := true
    writeOk := fun _ _ => true
    readResult := fun _ => some 0 }

/-- A TCP-style bridge (ensure_logged_in available and succeeding) whose
period-register writes raise and whose read-backs all return 999. -/
def bBad : Bridge :=
  { hasEnsureLoggedIn := true
    ensureOk := true
    writeOk := fun r _ =>
      decide (r ≠ Register.STORAGE_FORCED_CHARGING_AND_DISCHARGING_PERIOD)
    readResult := fun _ => some 999 }

/-- A bridge on which reading INV_PV_POWER raises and every other read
returns 0. -/
def bFailRead : Bridge :=
  { hasEnsureLoggedIn := true
    ensureOk := true
    writeOk := fun _ _ => true
    readResult := fun r =>
      if r = Register.INV_PV_POWER then none else some 0 }

/-- A session with a running monitor task attached. -/
def sRun : Session :=
  { monitorTask := some TaskStatus.running, orphanRunning := 0 }

/-- A fresh session: no monitor task was ever attached. -/
def sFresh : Session :=
  { monitorTask := none, orphanRunning := 0 }

/-- An environment whose transport connect fails. -/
def envFail : Env :=
  { connectOk := false, loginOk := true, bridge := bOK }

/-- C1: every plan builder writes the target-SoC register (and, for the
duration variants, the period register) before the power register, and the
power register before the trigger register; force_charge_duration emits
exactly [target-SoC=100, period=minutes, charge-power=power, trigger=1]. -/
theorem plan_builders_order (power duration targetSoc : Int) :
    force_charge_duration_plan power duration =
      [(Register.STORAGE_FORCIBLE_CHARGE_DISCHARGE_SOC, 100),
       (Register.STORAGE_FORCED_CHARGING_AND_DISCHARGING_PERIOD, duration),
       (Register.STORAGE_FORCIBLE_CHARGE_POWER, power),
       (Register.STORAGE_FORCIBLE_CHARGE_DISCHARGE_WRITE, 1)] ∧
    planRegisters (force_charge_duration_plan power duration) =
      [Register.STORAGE_FORCIBLE_CHARGE_DISCHARGE_SOC,
       Register.STORAGE_FORCED_CHARGING_AND_DISCHARGING_PERIOD,
       Register.STORAGE_FORCIBLE_CHARGE_POWER,
       Register.STORAGE_FORCIBLE_CHARGE_DISCHARGE_WRITE] ∧
    planRegisters (force_discharge_duration_plan power duration) =
      [Register.STORAGE_FORCIBLE_CHARGE_DISCHARGE_SOC,
       Register.STORAGE_FORCED_CHARGING_AND_DISCHARGING_PERIOD,
       Register.STORAGE_FORCIBLE_DISCHARGE_POWER,
       Register.STORAGE_FORCIBLE_CHARGE_DISCHARGE_WRITE] ∧
    planRegisters (force_charge_soc_plan power targetSoc) =
      [Register.STORAGE_FORCIBLE_CHARGE_DISCHARGE_SOC,
       Register.STORAGE_FORCIBLE_CHARGE_POWER,
       Register.STORAGE_FORCIBLE_CHARGE_DISCHARGE_WRITE] ∧
    planRegisters (force_discharge_soc_plan power targetSoc) =
      [Register.STORAGE_FORCIBLE_CHARGE_DISCHARGE_SOC,
       Register.STORAGE_FORCIBLE_DISCHARGE_POWER,
       Register.STORAGE_FORCIBLE_CHARGE_DISCHARGE_WRITE] := by
  exact ⟨rfl, rfl, rfl, rfl, rfl⟩

/-- C2: stop_charge emits exactly the ordered four-step plan
[period=0, charge-power=0, discharge-power=0, trigger=0], the trigger register
coming last with value 0, the idle/self-consumption encoding. -/
theorem stop_plan_steps :
    stop_plan =
      [(Register.STORAGE_FORCED_CHARGING_AND_DISCHARGING_PERIOD, 0),
       (Register.STORAGE_FORCIBLE_CHARGE_POWER, 0),
       (Register.STORAGE_FORCIBLE_DISCHARGE_POWER, 0),
       (Register.STORAGE_FORCIBLE_CHARGE_DISCHARGE_WRITE, 0)] ∧
    stop_plan.getLast? =
      some (Register.STORAGE_FORCIBLE_CHARGE_DISCHARGE_WRITE,
            triggerValue Mode.idle) ∧
    triggerValue Mode.idle = 0 := by
  exact ⟨rfl, rfl, rfl⟩

theorem countWrites_append (xs ys : List Event) :
    countWrites (xs ++ ys) = countWrites xs + countWrites ys := by
  simp [countWrites, List.filter_append]

theorem ensure_and_set_countWrites (b : Bridge) (r : Register) (v : Int)
    (h : b.hasEnsureLoggedIn = false ∨ b.ensureOk = true) :
    countWrites (ensure_and_set b r v).1 = 1 := by
  cases hE : b.hasEnsureLoggedIn <;> cases hO : b.ensureOk <;>
    cases hw : b.writeOk r v <;> cases hr : b.readResult r <;>
      simp_all [ensure_and_set, countWrites, isWrite]

/-- C3: the command sequencer never aborts: for every bridge whose login
refresh does not itself fail and every plan, every step is attempted (one
status per step) and bridge.set is attempted exactly once per step, whatever
the per-step write/read-back outcomes are. -/
theorem sequencer_never_aborts (b : Bridge) (plan : List (Register × Int))
    (h : b.hasEnsureLoggedIn = false ∨ b.ensureOk = true) :
    countWrites (execute b plan).1 = plan.length ∧
    (execute b plan).2.length = plan.length := by
  induction plan with
  | nil => simp [execute, countWrites]
  | cons step rest ih =>
      obtain ⟨r, v⟩ := step
      have h1 := ensure_and_set_countWrites b r v h
      constructor
      · simp only [execute, countWrites_append, List.length_cons]
        rw [h1, ih.1]
        omega
      · simp [execute, ih.2]

/-- Witness for C3: on a TCP-style bridge whose period-register writes raise
and whose read-backs all mismatch, executing the stop plan still attempts all
four writes and classifies all four steps. -/
theorem sequencer_never_aborts_witness :
    (bBad.hasEnsureLoggedIn = false ∨ bBad.ensureOk = true) ∧
    countWrites (execute bBad stop_plan).1 = stop_plan.length ∧
    (execute bBad stop_plan).2.length = stop_plan.length :=
  ⟨Or.inr rfl, (sequencer_never_aborts bBad stop_plan (Or.inr rfl)).1,
   (sequencer_never_aborts bBad stop_plan (Or.inr rfl)).2⟩

/-- C4 counterexample: on a session with a running poller, stop_charge writes
the stop plan first and cancels the monitor task only afterwards — the first
stop-plan write occurs strictly before the cancellation, not after it. -/
theorem stop_order_counterexample :
    (stop_charge bOK sRun).1.indexOf
        (Event.write Register.STORAGE_FORCED_CHARGING_AND_DISCHARGING_PERIOD 0) <
      (stop_charge bOK sRun).1.indexOf Event.cancelMonitor ∧
    ¬ ((stop_charge bOK sRun).1.indexOf Event.cancelMonitor <
        (stop_charge bOK sRun).1.indexOf
          (Event.write Register.STORAGE_FORCED_CHARGING_AND_DISCHARGING_PERIOD 0)) := by
  decide

/-- C4 (amended): on a session with a running poller, stop_charge first
executes the full stop plan through the sequencer and only then cancels and
awaits the monitor task, leaving it cancelled. -/
theorem stop_runs_plan_then_cancels (b : Bridge) (s : Session)
    (h : s.monitorTask = some TaskStatus.running) :
    (stop_charge b s).1 =
      (execute b stop_plan).1 ++ [Event.cancelMonitor, Event.awaitMonitor] ∧
    (stop_charge b s).2.monitorTask = some TaskStatus.cancelled := by
  unfold stop_charge
  rw [h]
  exact ⟨rfl, rfl⟩

/-- Witness for the amended C4 at a concrete bridge and session. -/
theorem stop_runs_plan_then_cancels_witness :
    sRun.monitorTask = some TaskStatus.running ∧
    ((stop_charge bOK sRun).1 =
      (execute bOK stop_plan).1 ++ [Event.cancelMonitor, Event.awaitMonitor] ∧
    (stop_charge bOK sRun).2.monitorTask = some TaskStatus.cancelled) :=
  ⟨rfl, stop_runs_plan_then_cancels bOK sRun rfl⟩

/-- C5 counterexample: two successive force_charge_duration calls with no stop
in between leave two monitor tasks running, and the second call emits no
cancellation of the first poller. -/
theorem single_poller_counterexample :
    runningPollers (force_charge_duration bOK
        (force_charge_duration bOK sFresh 500 30).2 800 10).2 = 2 ∧
    Event.cancelMonitor ∉ (force_charge_duration bOK
        (force_charge_duration bOK sFresh 500 30).2 800 10).1 := by
  decide

theorem cancel_not_mem_ensure_and_set (b : Bridge) (r : Register) (v : Int) :
    Event.cancelMonitor ∉ (ensure_and_set b r v).1 := by
  cases hE : b.hasEnsureLoggedIn <;> cases hO : b.ensureOk <;>
    cases hw : b.writeOk r v <;> cases hr : b.readResult r <;>
      simp_all [ensure_and_set]

theorem cancel_not_mem_execute (b : Bridge) (plan : List (Register × Int)) :
    Event.cancelMonitor ∉ (execute b plan).1 := by
  induction plan with
  | nil => simp [execute]
  | cons step rest ih =>
      obtain ⟨r, v⟩ := step
      simp [execute, List.mem_append, cancel_not_mem_ensure_and_set, ih]

/-- C5 (amended): starting a new forced charge or discharge while a previous
poller is still running does not stop it: no cancellation is emitted, the
task reference is overwritten, and the number of running pollers increases by
one (the session can hold two running pollers). -/
theorem force_overwrites_previous_poller (b : Bridge) (s : Session)
    (power duration : Int) (h : s.monitorTask = some TaskStatus.running) :
    Event.cancelMonitor ∉ (force_charge_duration b s power duration).1 ∧
    Event.cancelMonitor ∉ (force_discharge_duration b s power duration).1 ∧
    runningPollers (force_charge_duration b s power duration).2 =
      runningPollers s + 1 ∧
    runningPollers (force_discharge_duration b s power duration).2 =
      runningPollers s + 1 := by
  refine ⟨?_, ?_, ?_, ?_⟩
  · simp [force_charge_duration, List.mem_append, cancel_not_mem_execute]
  · simp [force_discharge_duration, List.mem_append, cancel_not_mem_execute]
  · simp [force_charge_duration, runningPollers, h]
  · simp [force_discharge_duration, runningPollers, h]

/-- Witness for the amended C5 at a concrete bridge and session. -/
theorem force_overwrites_previous_poller_witness :
    sRun.monitorTask = some TaskStatus.running ∧
    Event.cancelMonitor ∉ (force_charge_duration bOK sRun 500 30).1 ∧
    runningPollers (force_charge_duration bOK sRun 500 30).2 =
      runningPollers sRun + 1 :=
  ⟨rfl, (force_overwrites_previous_poller bOK sRun 500 30 rfl).1,
   (force_overwrites_previous_poller bOK sRun 500 30 rfl).2.2.1⟩

/-- C10: stop_charge on a session with no running poller (never started, or
already finished or cancelled) still executes the full four-step stop plan,
emits no cancellation, leaves the session unchanged, and returns normally. -/
theorem stop_without_poller_safe (b : Bridge) (s : Session)
    (h : s.monitorTask ≠ some TaskStatus.running) :
    (stop_charge b s).1 = (execute b stop_plan).1 ∧
    Event.cancelMonitor ∉ (stop_charge b s).1 ∧
    (stop_charge b s).2 = s ∧
    (execute b stop_plan).2.length = 4 := by
  have hmatch : stop_charge b s = ((execute b stop_plan).1, s) := by
    unfold stop_charge
    cases hm : s.monitorTask with
    | none => rfl
    | some t =>
        cases t with
        | running => exact absurd hm h
        | finished => rfl
        | cancelled => rfl
  rw [hmatch]
  exact ⟨rfl, cancel_not_mem_execute b stop_plan, rfl, rfl⟩

/-- Witness for C10 on a fresh session that never had a poller. -/
theorem stop_without_poller_safe_witness :
    sFresh.monitorTask ≠ some TaskStatus.running ∧
    ((stop_charge bOK sFresh).1 = (execute bOK stop_plan).1 ∧
     Event.cancelMonitor ∉ (stop_charge bOK sFresh).1 ∧
     (stop_charge bOK sFresh).2 = sFresh ∧
     (execute bOK stop_plan).2.length = 4) :=
  ⟨by decide, stop_without_poller_safe bOK sFresh (by decide)⟩

theorem read_param_trace_error (b : Bridge) (r : Register)
    (hf : b.readResult r = none) :
    (read_param b r).1 = [Event.readAttempt r, Event.reportError r] := by
  simp [read_param, hf]

theorem readAttempt_mem_read_param (b : Bridge) (r : Register) :
    Event.readAttempt r ∈ (read_param b r).1 := by
  unfold read_param
  cases h : b.readResult r <;> simp

theorem countReadAttempts_append (xs ys : List Event) :
    countReadAttempts (xs ++ ys) =
      countReadAttempts xs + countReadAttempts ys := by
  simp [countReadAttempts, List.filter_append]

theorem countReadAttempts_read_param (b : Bridge) (r : Register) :
    countReadAttempts (read_param b r).1 = 1 := by
  unfold read_param
  cases h : b.readResult r <;> simp [countReadAttempts, isReadAttempt]

theorem countReadAttempts_poll_cycle (b : Bridge) :
    countReadAttempts (poll_cycle b) = 7 := by
  simp [poll_cycle, countReadAttempts_append, countReadAttempts_read_param]

/-- C6: a failed register read in the telemetry loop is reported as an error
and polling goes on: every register of the fixed set is still attempted in
every cycle, and n cycles perform exactly n reads per register, whatever per-
register read outcomes the bridge produces. -/
theorem poller_survives_read_errors (b : Bridge) (r : Register) (n : Nat)
    (hr : r ∈ telemetryRegisters) (hf : b.readResult r = none) :
    Event.reportError r ∈ poll_cycle b ∧
    (∀ r2 ∈ telemetryRegisters, Event.readAttempt r2 ∈ poll_cycle b) ∧
    countReadAttempts (poll_telemetry b n) = n * telemetryRegisters.length := by
  refine ⟨?_, ?_, ?_⟩
  · fin_cases hr <;>
      simp [poll_cycle, List.mem_append, read_param_trace_error _ _ hf]
  · intro r2 hr2
    fin_cases hr2 <;>
      simp [poll_cycle, List.mem_append, readAttempt_mem_read_param]
  · induction n with
    | zero => simp [poll_telemetry, countReadAttempts]
    | succ k ih =>
        have hs : countReadAttempts [Event.sleepInterval] = 0 := rfl
        have hlen : telemetryRegisters.length = 7 := rfl
        simp only [poll_telemetry, countReadAttempts_append,
          countReadAttempts_poll_cycle, hs, ih, hlen]
        omega

/-- Witness for C6: reading INV_PV_POWER raises on bFailRead, yet the error
is reported and three cycles still perform 21 reads. -/
theorem poller_survives_read_errors_witness :
    Register.INV_PV_POWER ∈ telemetryRegisters ∧
    bFailRead.readResult Register.INV_PV_POWER = none ∧
    Event.reportError Register.INV_PV_POWER ∈ poll_cycle bFailRead ∧
    countReadAttempts (poll_telemetry bFailRead 3) =
      3 * telemetryRegisters.length := by
  have h := poller_survives_read_errors bFailRead Register.INV_PV_POWER 3
    (by decide) (by decide)
  exact ⟨by decide, by decide, h.1, h.2.2⟩

theorem writesPrecededAux_append_of (p : Option Event) (xs ys : List Event)
    (hx : writesPrecededAux p xs = true)
    (hy : ∀ q, writesPrecededAux q ys = true) :
    writesPrecededAux p (xs ++ ys) = true := by
  induction xs generalizing p with
  | nil => exact hy p
  | cons a xs ih =>
      simp only [List.cons_append, writesPrecededAux, Bool.and_eq_true] at hx ⊢
      exact ⟨hx.1, ih (some a) hx.2⟩

theorem ensure_and_set_writesPrecededAux (b : Bridge) (r : Register) (v : Int)
    (hE : b.hasEnsureLoggedIn = true) (p : Option Event) :
    writesPrecededAux p (ensure_and_set b r v).1 = true := by
  cases hO : b.ensureOk <;> cases hw : b.writeOk r v <;>
    cases hr : b.readResult r <;>
      simp_all [ensure_and_set, writesPrecededAux]

theorem execute_writesPrecededAux (b : Bridge) (plan : List (Register × Int))
    (hE : b.hasEnsureLoggedIn = true) (p : Option Event) :
    writesPrecededAux p (execute b plan).1 = true := by
  induction plan generalizing p with
  | nil => rfl
  | cons step rest ih =>
      obtain ⟨r, v⟩ := step
      simp only [execute]
      exact writesPrecededAux_append_of p _ _
        (ensure_and_set_writesPrecededAux b r v hE p) (fun q => ih q)

theorem ensureLoggedIn_not_mem_read_param (b : Bridge) (r : Register) :
    Event.ensureLoggedIn ∉ (read_param b r).1 := by
  unfold read_param
  cases h : b.readResult r <;> simp

theorem ensureLoggedIn_not_mem_poll_cycle (b : Bridge) :
    Event.ensureLoggedIn ∉ poll_cycle b := by
  simp [poll_cycle, List.mem_append, ensureLoggedIn_not_mem_read_param]

/-- C7: on the TCP transport every bridge.set in a plan execution is
immediately preceded by an ensure_logged_in call, while the read path
(read_param and the whole telemetry loop) never invokes the
ensure-authenticated capability. -/
theorem tcp_write_path_auth (b : Bridge) (plan : List (Register × Int))
    (r : Register) (n : Nat) (hE : b.hasEnsureLoggedIn = true) :
    writesPreceded (execute b plan).1 = true ∧
    Event.ensureLoggedIn ∉ (read_param b r).1 ∧
    Event.ensureLoggedIn ∉ poll_telemetry b n := by
  refine ⟨execute_writesPrecededAux b plan hE none,
    ensureLoggedIn_not_mem_read_param b r, ?_⟩
  induction n with
  | zero => simp [poll_telemetry]
  | succ k ih =>
      simp [poll_telemetry, List.mem_append, ih,
        ensureLoggedIn_not_mem_poll_cycle b]

/-- Witness for C7 on a concrete TCP-style bridge, plan and register. -/
theorem tcp_write_path_auth_witness :
    bFailRead.hasEnsureLoggedIn = true ∧
    (writesPreceded (execute bFailRead stop_plan).1 = true ∧
     Event.ensureLoggedIn ∉
       (read_param bFailRead Register.STORAGE_STATE_OF_CAPACITY).1 ∧
     Event.ensureLoggedIn ∉ poll_telemetry bFailRead 2) :=
  ⟨rfl, tcp_write_path_auth bFailRead stop_plan
    Register.STORAGE_STATE_OF_CAPACITY 2 rfl⟩

/-- C8: connect returns a usable bridge exactly when the transport (and, over
TCP, the login) succeeds; a connection failure is reported as a connection
error and the requested operation performs no device write at all; a rejected
TCP login is reported as an auth error and yields no session. -/
theorem connect_reports_failure_and_aborts (e : Env) :
    ((connect_rtu e).2.isSome = true ↔ e.connectOk = true) ∧
    ((connect_and_login e).2.isSome = true ↔
      (e.connectOk && e.loginOk) = true) ∧
    (e.connectOk = false →
      Event.logFailure ErrKind.connection ∈ (connect_rtu e).1 ∧
      countWrites (main_rtu e) = 0) ∧
    (e.connectOk = true → e.loginOk = false →
      Event.logFailure ErrKind.auth ∈ (connect_and_login e).1 ∧
      (connect_and_login e).2 = none) := by
  cases hc : e.connectOk <;> cases hl : e.loginOk <;>
    simp [connect_rtu, connect_and_login, main_rtu, countWrites, isWrite,
      hc, hl]

/-- Witness for C8: a failing transport yields a logged connection error and
an immediately aborted main flow with zero device writes. -/
theorem connect_reports_failure_and_aborts_witness :
    envFail.connectOk = false ∧
    (Event.logFailure ErrKind.connection ∈ (connect_rtu envFail).1 ∧
     countWrites (main_rtu envFail) = 0) :=
  ⟨rfl, (connect_reports_failure_and_aborts envFail).2.2.1 rfl⟩

/-- C9: shutdown_bridge never propagates an exception — any number of
successive calls, from any transport state (already closed or with a raising
stop), returns normally — and it is idempotent: a second call returns the
state of the first unchanged. -/
theorem shutdown_idempotent_never_raises (st : BridgeState) (n : Nat) :
    isOkResult (shutdownIter n st) = true ∧
    (∀ st1, shutdown_bridge st = Except.ok st1 →
      shutdown_bridge st1 = Except.ok st1) := by
  constructor
  · induction n generalizing st with
    | zero => rfl
    | succ k ih =>
        have hok : ∃ st2, shutdown_bridge st = Except.ok st2 := by
          unfold shutdown_bridge bridgeStop
          cases h : st.stopRaises <;> simp
        obtain ⟨st2, h2⟩ := hok
        unfold shutdownIter
        rw [h2]
        exact ih st2
  · intro st1 h1
    cases h : st.stopRaises
    · have hst : st1 = { closed := true, stopRaises := false } := by
        simp [shutdown_bridge, bridgeStop, h] at h1
        exact h1.symm
      subst hst
      rfl
    · have hst : st1 = st := by
        simp [shutdown_bridge, bridgeStop, h] at h1
        exact h1.symm
      subst hst
      simp [shutdown_bridge, bridgeStop, h]

/-- Witness for C9: three shutdown calls on an open bridge all return
normally, and re-closing an already closed bridge returns it unchanged. -/
theorem shutdown_idempotent_never_raises_witness :
    isOkResult
      (shutdownIter 3 { closed := false, stopRaises := false }) = true ∧
    shutdown_bridge { closed := true, stopRaises := false } =
      Except.ok { closed := true, stopRaises := false } :=
  ⟨(shutdown_idempotent_never_raises ⟨false, false⟩ 3).1,
   (shutdown_idempotent_never_raises ⟨false, false⟩ 3).2 ⟨true, false⟩ rfl⟩

end Sun2000
